import Mathlib

/-!
Shallow embedding of `pi_python.py` (class `PiNetwork`), a custodial payment
lifecycle client.  Python `Decimal` values are modelled as `Rat`: all
arithmetic performed by the source (`Decimal(amount) + Decimal(fee) /
Decimal('10000000')`, comparison with `>`) is exact at the operand sizes
involved, so `Rat` arithmetic coincides with `Decimal` arithmetic here.
Network effects (HTTP requests, horizon queries, ledger submission) are
modelled as explicit oracle arguments of type `QueryResult`: `ok v` is a
call that returned value `v`, `err` is a call that raised.  Python dicts
holding payment data are modelled by `PaymentDict`, a record of optional
fields (`none` = key absent); dict truthiness (`{}` is falsy) is modelled by
`PaymentDict.isEmpty`.
-/

/-- Outcome of an external call: a returned value, or a raised exception. -/
inductive QueryResult (α : Type) where
  | ok (v : α)
  | err
deriving DecidableEq

/-- A payment-data dictionary.  Each field is `some v` when the corresponding
key is present in the Python dict and `none` when absent.  `metadata` is an
opaque app-defined mapping; its value is never read by the source. -/
structure PaymentDict where
  amount : Option Rat := none
  memo : Option String := none
  metadata : Option (List (String × String)) := none
  user_uid : Option String := none
  identifier : Option String := none
  to_address : Option String := none
deriving DecidableEq

/-- Python dict truthiness: a dict with no keys is falsy. -/
def PaymentDict.isEmpty (d : PaymentDict) : Bool :=
  d.amount.isNone && d.memo.isNone && d.metadata.isNone &&
    d.user_uid.isNone && d.identifier.isNone && d.to_address.isNone

/-- Source `_validate_payment_data`: `all(field in data for field in
['amount', 'memo', 'metadata', 'user_uid', 'identifier', 'to_address'])`.
Checks key presence only. -/
def validate_payment_data (d : PaymentDict) : Bool :=
  [d.amount.isSome, d.memo.isSome, d.metadata.isSome,
    d.user_uid.isSome, d.identifier.isSome, d.to_address.isSome].all (fun b => b)

/-- A signing keypair (source `s_sdk.Keypair`). -/
structure Keypair where
  secret : String
  public_key : String
deriving DecidableEq

/-- The session state of a `PiNetwork` instance: the fields set in
`__init__`.  `server` is the horizon handle modelled by its URL, `account`
the loaded account record modelled by its id, `open_payments` the
open-payment registry (a Python dict, modelled as a key-unique association
list). -/
structure PiState where
  api_key : String
  server : Option String
  account : Option String
  base_url : String
  network : String
  keypair : Option Keypair
  fee : Int
  open_payments : List (String × PaymentDict)
deriving DecidableEq

/-- Source `PiNetwork.__init__`: all fields empty / `None` / `0`. -/
def initialState : PiState :=
  { api_key := "", server := none, account := none, base_url := "",
    network := "", keypair := none, fee := 0, open_payments := [] }

def MAINNET_URL : String := "https://api.mainnet.minepi.com"

def TESTNET_URL : String := "https://api.testnet.minepi.com"

/-- Registry lookup (Python `dict` access / `in`). -/
def regFind : List (String × PaymentDict) → String → Option PaymentDict
  | [], _ => none
  | (k', v) :: rest, k => if k' = k then some v else regFind rest k

/-- Registry insertion (Python `d[k] = v`): overwrite in place or append. -/
def regInsert : List (String × PaymentDict) → String → PaymentDict →
    List (String × PaymentDict)
  | [], k, v => [(k, v)]
  | (k', v') :: rest, k, v =>
      if k' = k then (k, v) :: rest else (k', v') :: regInsert rest k v

/-- Registry deletion (Python `del d[k]`). -/
def regErase : List (String × PaymentDict) → String → List (String × PaymentDict)
  | [], _ => []
  | (k', v') :: rest, k =>
      if k' = k then regErase rest k else (k', v') :: regErase rest k

/-- Source `_validate_private_seed_format`:
`seed.upper().startswith('S') and len(seed) == 56`.  Uppercasing the whole
string and testing the first character equals testing the uppercased first
character, which is how it is modelled here. -/
def validate_private_seed_format (seed : String) : Bool :=
  (match seed.data with
   | [] => false
   | c :: _ => c.toUpper = 'S') && (seed.length = 56)

/-- A single horizon balance entry (`asset_type`, `balance`). -/
structure BalanceEntry where
  asset_type : String
  balance : Rat
deriving DecidableEq

/-- The `for balance in balances` loop of `get_balance`: first entry with
`asset_type == "native"`. -/
def findNative : List BalanceEntry → Option Rat
  | [] => none
  | e :: rest => if e.asset_type = "native" then some e.balance else findNative rest

/-- Source `get_balance`: on a successful query return the first native
balance (or `Decimal(0)` if no native entry); on any exception return
`Decimal(0)`. -/
def get_balance (balanceQ : QueryResult (List BalanceEntry)) : Rat :=
  match balanceQ with
  | .ok balances => (findNative balances).getD 0
  | .err => 0

/-- Python string truthiness: `None` and `""` are falsy. -/
def truthyStr : Option String → Option String
  | none => none
  | some s => if s = "" then none else some s

/-- Python dict truthiness on an optional dict: `None` and `{}` are falsy. -/
def truthyDict : Option PaymentDict → Option PaymentDict
  | none => none
  | some d => if d.isEmpty then none else some d

/-- The JSON response of the remote create call: its top-level
payment-shaped keys (including `identifier`), and the nested `payment`
object when that key is present. -/
structure CreateResponse where
  topFields : PaymentDict
  payment : Option PaymentDict
deriving DecidableEq

/-- Source line `response.get('identifier') or
response.get('payment', {}).get('identifier')`, then tested for truthiness:
`some i` iff the combined expression is a non-empty string `i`. -/
def responseIdentifier (r : CreateResponse) : Option String :=
  (truthyStr r.topFields.identifier).orElse
    (fun _ => truthyStr (r.payment.bind (fun p => p.identifier)))

/-- Source line `response.get('payment') or response`: the snapshot cached
in the registry. -/
def responseSnapshot (r : CreateResponse) : PaymentDict :=
  match r.payment with
  | some p => if p.isEmpty then r.topFields else p
  | none => r.topFields

/-- Result of `create_payment`: the state afterwards, the returned string,
and whether the balance query and the remote create request were issued. -/
structure CreateResult where
  state : PiState
  result : String
  balance_queried : Bool
  remote_called : Bool
deriving DecidableEq

/-- Scaling of the cached base fee:
`Decimal(self._fee) / Decimal('10000000')`. -/
def feeAsDecimal (fee : Int) : Rat := (fee : Rat) / 10000000

/-- Source `create_payment`.  Validates the data (raising, caught at the
boundary, when invalid), queries the balance, gates on
`total_cost > balance`, then issues the remote create request; on a truthy
returned identifier caches the snapshot in the registry and returns the
identifier, otherwise returns `""`.  Every exception is caught and turned
into `""`. -/
def create_payment (st : PiState) (payment_data : PaymentDict)
    (balanceQ : QueryResult (List BalanceEntry))
    (remote : QueryResult CreateResponse) : CreateResult :=
  if ¬ validate_payment_data payment_data then
    { state := st, result := "", balance_queried := false, remote_called := false }
  else
    let balance := get_balance balanceQ
    let total_cost : Rat := (payment_data.amount.getD 0) + feeAsDecimal st.fee
    if total_cost > balance then
      { state := st, result := "", balance_queried := true, remote_called := false }
    else
      match remote with
      | .err =>
          { state := st, result := "", balance_queried := true, remote_called := true }
      | .ok r =>
          match responseIdentifier r with
          | some i =>
              { state := { st with
                  open_payments := regInsert st.open_payments i (responseSnapshot r) },
                result := i, balance_queried := true, remote_called := true }
          | none =>
              { state := st, result := "", balance_queried := true, remote_called := true }

/-- A single payment operation appended by the transaction builder. -/
structure PaymentOp where
  destination : String
  asset_native : Bool
  amount : Rat
deriving DecidableEq

/-- A built (and possibly signed) ledger transaction. -/
structure Transaction where
  source_account : Option String
  network_passphrase : String
  base_fee : Int
  memo_text : String
  operations : List PaymentOp
  timeout : Nat
  signed_by : Option Keypair
deriving DecidableEq

/-- Source `_build_a2u_transaction`: raises (modelled `none`) on invalid
data; otherwise builds a transaction with the identifier as text memo, one
native-asset payment operation of `amount` to `to_address`, and a timeout
of 180 seconds.  Building does not sign. -/
def build_a2u_transaction (st : PiState) (transaction_data : PaymentDict) :
    Option Transaction :=
  if ¬ validate_payment_data transaction_data then none
  else
    some { source_account := st.account,
           network_passphrase := st.network,
           base_fee := st.fee,
           memo_text := transaction_data.identifier.getD "",
           operations := [{ destination := transaction_data.to_address.getD "",
                            asset_native := true,
                            amount := transaction_data.amount.getD 0 }],
           timeout := 180,
           signed_by := none }

/-- Source `transaction.sign(self._keypair)` inside `_submit_transaction`. -/
def sign_transaction (st : PiState) (tx : Transaction) : Transaction :=
  { tx with signed_by := st.keypair }

/-- Source `_submit_transaction`: sign with the session keypair, submit to
the node, return `response["id"]`; `none` models a raised exception (network
failure or missing id). -/
def submit_transaction (st : PiState) (transaction : Transaction)
    (ledger : QueryResult String) : Option (Transaction × String) :=
  let signed := sign_transaction st transaction
  match ledger with
  | .ok txid => some (signed, txid)
  | .err => none

/-- Result of `submit_payment`: the state afterwards, the returned string,
and whether the balance query and the ledger submission were issued. -/
structure SubmitResult where
  state : PiState
  result : String
  balance_queried : Bool
  ledger_submitted : Bool
deriving DecidableEq

/-- Source `submit_payment`.  Returns `""` immediately when the id is not
registered and no truthy pending payment was passed.  Resolves the payment
(a truthy `pending_payment` wins over the registry entry), queries the
balance, reads `payment["amount"]` (a `KeyError`, caught, when absent),
gates on `total_cost > balance`, builds and submits the transaction, and
only then deletes the registry entry (when present) and returns the txid.
Every exception is caught and turned into `""`. -/
def submit_payment (st : PiState) (payment_id : String)
    (pending_payment : Option PaymentDict)
    (balanceQ : QueryResult (List BalanceEntry))
    (ledger : QueryResult String) : SubmitResult :=
  if regFind st.open_payments payment_id = none ∧ truthyDict pending_payment = none then
    { state := st, result := "", balance_queried := false, ledger_submitted := false }
  else
    let payment :=
      match truthyDict pending_payment with
      | some p => p
      | none => (regFind st.open_payments payment_id).getD {}
    let balance := get_balance balanceQ
    match payment.amount with
    | none =>
        { state := st, result := "", balance_queried := true, ledger_submitted := false }
    | some a =>
        if a + feeAsDecimal st.fee > balance then
          { state := st, result := "", balance_queried := true, ledger_submitted := false }
        else
          match build_a2u_transaction st payment with
          | none =>
              { state := st, result := "", balance_queried := true,
                ledger_submitted := false }
          | some tx =>
              match submit_transaction st tx ledger with
              | none =>
                  { state := st, result := "", balance_queried := true,
                    ledger_submitted := true }
              | some (_, txid) =>
                  { state := { st with
                      open_payments := regErase st.open_payments payment_id },
                    result := txid, balance_queried := true, ledger_submitted := true }

/-- Source `complete_payment`: POST to the complete endpoint; `true` on
success, `false` on any exception.  Never touches the registry. -/
def complete_payment (st : PiState) (identifier : String) (txid : Option String)
    (remote : QueryResult Unit) : PiState × Bool :=
  match remote with
  | .ok _ => (st, true)
  | .err => (st, false)

/-- Source `cancel_payment`: POST to the cancel endpoint; `true` on success,
`false` on any exception.  Never touches the registry. -/
def cancel_payment (st : PiState) (identifier : String)
    (remote : QueryResult Unit) : PiState × Bool :=
  match remote with
  | .ok _ => (st, true)
  | .err => (st, false)

/-- Source `get_incomplete_server_payments`:
`response.get("incomplete_server_payments", [])` on success (the inner
`Option` models key presence), `[]` on any exception. -/
def get_incomplete_server_payments (st : PiState)
    (remote : QueryResult (Option (List PaymentDict))) : List PaymentDict :=
  match remote with
  | .ok (some l) => l
  | .ok none => []
  | .err => []

/-- Source `initialize` together with `_load_account`, with the mutation
order of the source preserved: seed-format check (raises before any
mutation), then `_api_key` is assigned, then `_load_account` sets the
keypair (`kpR = none` models `Keypair.from_secret` raising) and the server
handle and loads the account (`loadR`), then `_base_url` and `_network` are
assigned, then the base fee is fetched (`feeR`).  Any exception is caught
and `False` is returned, leaving all assignments made so far in place. -/
def init_session (st : PiState) (api_key wallet_private_key network : String)
    (kpR : Option Keypair) (loadR : QueryResult String)
    (feeR : QueryResult Int) : PiState × Bool :=
  if ¬ validate_private_seed_format wallet_private_key then (st, false)
  else
    let st1 := { st with api_key := api_key }
    match kpR with
    | none => (st1, false)
    | some kp =>
        let horizon := if network = "Pi Network" then MAINNET_URL else TESTNET_URL
        let st2 := { st1 with keypair := some kp, server := some horizon }
        match loadR with
        | .err => (st2, false)
        | .ok acct =>
            let st3 := { st2 with
              account := some acct,
              base_url := if network = "Pi Network" then MAINNET_URL else TESTNET_URL,
              network := network }
            match feeR with
            | .err => (st3, false)
            | .ok f => ({ st3 with fee := f }, true)

/-! ## Helper lemmas -/

theorem regFind_regErase (l : List (String × PaymentDict)) (k : String) :
    regFind (regErase l k) k = none := by
  induction l with
  | nil => rfl
  | cons hd tl ih =>
      obtain ⟨k', v'⟩ := hd
      by_cases h : k' = k
      · simpa [regErase, h] using ih
      · simp [regErase, regFind, h, ih]

theorem validate_fields {d : PaymentDict} (h : validate_payment_data d = true) :
    d.amount.isSome = true ∧ d.memo.isSome = true ∧ d.metadata.isSome = true ∧
      d.user_uid.isSome = true ∧ d.identifier.isSome = true ∧
      d.to_address.isSome = true := by
  simpa [validate_payment_data] using h

theorem validate_not_empty {d : PaymentDict} (h : validate_payment_data d = true) :
    d.isEmpty = false := by
  obtain ⟨ha, -⟩ := validate_fields h
  simp [PaymentDict.isEmpty, Option.isNone_iff_eq_none]
  intro hn
  rw [hn] at ha
  simp at ha

/-! ## Shared concrete sample values for witnesses -/

/-- A fully populated payment dict. -/
def sampleDict : PaymentDict :=
  { amount := some 1, memo := some "x", metadata := some [],
    user_uid := some "u1", identifier := some "pay1", to_address := some "GADDR" }

/-- A session state with a cached base fee of 100 stroops. -/
def sampleState : PiState := { initialState with fee := 100 }

/-- A create response carrying a top-level identifier. -/
def sampleResp : CreateResponse :=
  { topFields := { identifier := some "pay1" }, payment := none }

/-- Balance query yielding a native balance of 1/2. -/
def lowBalanceQ : QueryResult (List BalanceEntry) :=
  .ok [{ asset_type := "native", balance := 1/2 }]

/-- Balance query yielding a native balance of 2. -/
def highBalanceQ : QueryResult (List BalanceEntry) :=
  .ok [{ asset_type := "native", balance := 2 }]

/-- Balance query yielding exactly 1 + 100/10^7, the total cost of
`sampleDict` under `sampleState`. -/
def exactBalanceQ : QueryResult (List BalanceEntry) :=
  .ok [{ asset_type := "native", balance := 1 + 1/100000 }]

/-! ## Claims -/

/-- C1: for every valid intent with amount `A`, cached base fee `F = st.fee`
and current balance `B`, `create_payment` gates on
`totalCost = A + F / 10^7`: when `totalCost > B` it returns the empty
sentinel, leaves the state unchanged and does not issue the remote create
request; when `totalCost ≤ B` it issues the remote create request. -/
theorem C1_create_payment_balance_gate (st : PiState) (d : PaymentDict)
    (bq : QueryResult (List BalanceEntry)) (remote : QueryResult CreateResponse)
    (A B : Rat) (hv : validate_payment_data d = true) (ha : d.amount = some A)
    (hB : get_balance bq = B) :
    (A + feeAsDecimal st.fee > B →
      create_payment st d bq remote =
        { state := st, result := "", balance_queried := true,
          remote_called := false }) ∧
    (A + feeAsDecimal st.fee ≤ B →
      (create_payment st d bq remote).remote_called = true) := by
  constructor
  · intro hgt
    simp [create_payment, hv, ha, hB, hgt]
  · intro hle
    have hngt : ¬ A + feeAsDecimal st.fee > B := not_lt.mpr hle
    simp only [create_payment, hv, Bool.not_true, if_neg, ha, hB]
    simp [hngt]
    cases remote with
    | err => simp
    | ok r =>
        cases hri : responseIdentifier r with
        | some i => simp [hri]
        | none => simp [hri]

/-- Witness for C1 at concrete inputs: balance 1/2 blocks, balance 2
proceeds. -/
theorem C1_witness :
    create_payment sampleState sampleDict lowBalanceQ (.ok sampleResp) =
      { state := sampleState, result := "", balance_queried := true,
        remote_called := false } ∧
    (create_payment sampleState sampleDict highBalanceQ (.ok sampleResp)).remote_called
      = true := by
  refine ⟨(C1_create_payment_balance_gate sampleState sampleDict lowBalanceQ
      (.ok sampleResp) 1 (1/2) rfl rfl rfl).1 ?_,
    (C1_create_payment_balance_gate sampleState sampleDict highBalanceQ
      (.ok sampleResp) 1 2 rfl rfl rfl).2 ?_⟩
  · norm_num [sampleState, feeAsDecimal, initialState]
  · norm_num [sampleState, feeAsDecimal, initialState]

theorem truthyStr_ne_empty {o : Option String} {i : String}
    (h : truthyStr o = some i) : i ≠ "" := by
  cases o with
  | none => simp [truthyStr] at h
  | some s =>
      simp only [truthyStr] at h
      split at h
      · exact absurd h (by simp)
      · cases h
        assumption

theorem responseIdentifier_ne_empty {r : CreateResponse} {i : String}
    (h : responseIdentifier r = some i) : i ≠ "" := by
  simp only [responseIdentifier, Option.orElse] at h
  cases h1 : truthyStr r.topFields.identifier with
  | some j =>
      rw [h1] at h
      simp at h
      cases h
      exact truthyStr_ne_empty h1
  | none =>
      rw [h1] at h
      simp at h
      exact truthyStr_ne_empty h

/-- Case analysis of `create_payment`: every run either leaves the state
unchanged and returns `""`, or the remote call succeeded with a truthy
identifier which is cached and returned. -/
theorem create_payment_cases (st : PiState) (d : PaymentDict)
    (bq : QueryResult (List BalanceEntry)) (rc : QueryResult CreateResponse) :
    ((create_payment st d bq rc).state = st ∧ (create_payment st d bq rc).result = "")
    ∨ (∃ r i, rc = QueryResult.ok r ∧ responseIdentifier r = some i ∧ i ≠ "" ∧
        create_payment st d bq rc =
          { state := { st with
              open_payments := regInsert st.open_payments i (responseSnapshot r) },
            result := i, balance_queried := true, remote_called := true }) := by
  simp only [create_payment]
  split
  · exact Or.inl ⟨rfl, rfl⟩
  · split
    · exact Or.inl ⟨rfl, rfl⟩
    · cases rc with
      | err => exact Or.inl ⟨rfl, rfl⟩
      | ok r =>
          cases hri : responseIdentifier r with
          | none => simp only [hri]; exact Or.inl ⟨by trivial, by trivial⟩
          | some i =>
              simp only [hri]
              exact Or.inr ⟨r, i, rfl, hri, responseIdentifier_ne_empty hri, rfl⟩

/-- Case analysis of `submit_payment`: every run either leaves the state
unchanged and returns `""`, or the ledger submission succeeded with txid
`t`, the registry entry for the id was deleted, and `t` is returned. -/
theorem submit_payment_cases (st : PiState) (pid : String)
    (pending : Option PaymentDict) (bq : QueryResult (List BalanceEntry))
    (lg : QueryResult String) :
    ((submit_payment st pid pending bq lg).state = st ∧
      (submit_payment st pid pending bq lg).result = "")
    ∨ (∃ t, lg = QueryResult.ok t ∧
        submit_payment st pid pending bq lg =
          { state := { st with open_payments := regErase st.open_payments pid },
            result := t, balance_queried := true, ledger_submitted := true }) := by
  simp only [submit_payment]
  split
  · exact Or.inl ⟨rfl, rfl⟩
  · cases hpay : (match truthyDict pending with
      | some p => p
      | none => (regFind st.open_payments pid).getD {} : PaymentDict).amount with
    | none => simp only [hpay]; exact Or.inl ⟨by trivial, by trivial⟩
    | some a =>
        simp only [hpay]
        split
        · exact Or.inl ⟨rfl, rfl⟩
        · cases hb : build_a2u_transaction st
            (match truthyDict pending with
              | some p => p
              | none => (regFind st.open_payments pid).getD {}) with
          | none => simp only [hb]; exact Or.inl ⟨by trivial, by trivial⟩
          | some tx =>
              simp only [hb]
              cases lg with
              | err => exact Or.inl ⟨rfl, rfl⟩
              | ok t =>
                  exact Or.inr ⟨t, rfl, rfl⟩

/-- C2: when `submit_payment` returns a non-empty transaction id the
identifier is absent from the registry afterwards; when it returns the
empty sentinel the registry entry for the identifier is unchanged.  The
hypothesis `hok` states that the ledger never reports an empty transaction
id for a successful submission. -/
theorem C2_submit_payment_registry_atomicity (st : PiState) (pid : String)
    (pending : Option PaymentDict) (bq : QueryResult (List BalanceEntry))
    (lg : QueryResult String) (hok : ∀ t, lg = QueryResult.ok t → t ≠ "") :
    ((submit_payment st pid pending bq lg).result ≠ "" →
      regFind (submit_payment st pid pending bq lg).state.open_payments pid = none) ∧
    ((submit_payment st pid pending bq lg).result = "" →
      regFind (submit_payment st pid pending bq lg).state.open_payments pid =
        regFind st.open_payments pid) := by
  rcases submit_payment_cases st pid pending bq lg with ⟨hs, hr⟩ | ⟨t, hlg, heq⟩
  · refine ⟨fun h => absurd hr h, fun _ => by rw [hs]⟩
  · have ht : t ≠ "" := hok t hlg
    constructor
    · intro _
      rw [heq]
      exact regFind_regErase _ _
    · intro h
      rw [heq] at h
      simp at h
      exact absurd h ht

/-- Session state whose registry holds one open payment `pay1`. -/
def regSt : PiState := { sampleState with open_payments := [("pay1", sampleDict)] }

/-- Witness for C2: a successful concrete submission removes `pay1`; a
failed one leaves the registry lookup unchanged. -/
theorem C2_witness :
    regFind (submit_payment regSt "pay1" none highBalanceQ
      (QueryResult.ok "tx1")).state.open_payments "pay1" = none ∧
    regFind (submit_payment regSt "pay1" none highBalanceQ
      QueryResult.err).state.open_payments "pay1" = regFind regSt.open_payments "pay1" := by
  have hev : (submit_payment regSt "pay1" none highBalanceQ
      (QueryResult.ok "tx1")).result = "tx1" := by
    norm_num [submit_payment, regSt, sampleState, initialState, regFind, truthyDict,
      sampleDict, get_balance, findNative, highBalanceQ, feeAsDecimal,
      build_a2u_transaction, validate_payment_data, submit_transaction, sign_transaction]
    rfl
  have hev2 : (submit_payment regSt "pay1" none highBalanceQ
      QueryResult.err).result = "" := by
    norm_num [submit_payment, regSt, sampleState, initialState, regFind, truthyDict,
      sampleDict, get_balance, findNative, highBalanceQ, feeAsDecimal,
      build_a2u_transaction, validate_payment_data, submit_transaction, sign_transaction]
    rfl
  refine ⟨(C2_submit_payment_registry_atomicity regSt "pay1" none highBalanceQ
      (QueryResult.ok "tx1") ?_).1 ?_,
    (C2_submit_payment_registry_atomicity regSt "pay1" none highBalanceQ
      QueryResult.err ?_).2 hev2⟩
  · intro t ht
    injection ht with h
    subst h
    decide
  · rw [hev]
    decide
  · intro t ht
    cases ht

/-- C3: `complete_payment` and `cancel_payment` never mutate the registry;
`create_payment` leaves the registry unchanged when it returns the empty
sentinel and otherwise (its remote call succeeded) adds exactly the
returned identifier; `submit_payment` leaves the registry unchanged when it
returns the empty sentinel and otherwise removes exactly the submitted
identifier. -/
theorem C3_registry_mutation_invariant (st : PiState) (d : PaymentDict)
    (bq bq2 : QueryResult (List BalanceEntry)) (rc : QueryResult CreateResponse)
    (pid : String) (pending : Option PaymentDict) (lg : QueryResult String)
    (idf idc : String) (txid : Option String) (rcu rcc : QueryResult Unit)
    (hok : ∀ t, lg = QueryResult.ok t → t ≠ "") :
    (complete_payment st idf txid rcu).1.open_payments = st.open_payments ∧
    (cancel_payment st idc rcc).1.open_payments = st.open_payments ∧
    ((create_payment st d bq rc).result = "" →
      (create_payment st d bq rc).state.open_payments = st.open_payments) ∧
    ((create_payment st d bq rc).result ≠ "" →
      ∃ r, rc = QueryResult.ok r ∧
        (create_payment st d bq rc).state.open_payments =
          regInsert st.open_payments (create_payment st d bq rc).result
            (responseSnapshot r)) ∧
    ((submit_payment st pid pending bq2 lg).result = "" →
      (submit_payment st pid pending bq2 lg).state.open_payments = st.open_payments) ∧
    ((submit_payment st pid pending bq2 lg).result ≠ "" →
      (submit_payment st pid pending bq2 lg).state.open_payments =
        regErase st.open_payments pid) := by
  refine ⟨by cases rcu <;> rfl, by cases rcc <;> rfl, ?_, ?_, ?_, ?_⟩
  · intro hres0
    rcases create_payment_cases st d bq rc with ⟨hs, _⟩ | ⟨r, i, _, _, hne, heq⟩
    · rw [hs]
    · rw [heq] at hres0
      simp at hres0
      exact absurd hres0 hne
  · intro h
    rcases create_payment_cases st d bq rc with ⟨_, hr⟩ | ⟨r, i, hrc, _, _, heq⟩
    · exact absurd hr h
    · exact ⟨r, hrc, by rw [heq]⟩
  · intro h
    rcases submit_payment_cases st pid pending bq2 lg with ⟨hs, _⟩ | ⟨t, hlg, heq⟩
    · rw [hs]
    · rw [heq] at h
      simp at h
      exact absurd h (hok t hlg)
  · intro hres1
    rcases submit_payment_cases st pid pending bq2 lg with ⟨_, hr⟩ | ⟨t, hlg, heq⟩
    · exact absurd hr hres1
    · rw [heq]

/-- Witness for C3 at concrete inputs: complete and cancel leave the
registry alone, a successful create inserts the returned identifier, a
successful submit erases the submitted identifier. -/
theorem C3_witness :
    (complete_payment regSt "pay1" none (QueryResult.ok ())).1.open_payments =
      regSt.open_payments ∧
    (cancel_payment regSt "pay1" QueryResult.err).1.open_payments =
      regSt.open_payments ∧
    (create_payment regSt sampleDict highBalanceQ
        (QueryResult.ok sampleResp)).state.open_payments =
      regInsert regSt.open_payments "pay1" (responseSnapshot sampleResp) ∧
    (submit_payment regSt "pay1" none highBalanceQ
        (QueryResult.ok "tx1")).state.open_payments =
      regErase regSt.open_payments "pay1" := by
  have hresc : (create_payment regSt sampleDict highBalanceQ
      (QueryResult.ok sampleResp)).result = "pay1" := by
    norm_num [create_payment, regSt, sampleState, initialState, validate_payment_data,
      sampleDict, get_balance, findNative, highBalanceQ, feeAsDecimal,
      responseIdentifier, truthyStr, sampleResp]
    rfl
  have hress : (submit_payment regSt "pay1" none highBalanceQ
      (QueryResult.ok "tx1")).result = "tx1" := by
    norm_num [submit_payment, regSt, sampleState, initialState, regFind, truthyDict,
      sampleDict, get_balance, findNative, highBalanceQ, feeAsDecimal,
      build_a2u_transaction, validate_payment_data, submit_transaction, sign_transaction]
    rfl
  obtain ⟨h1, h2, -, h4, -, h6⟩ := C3_registry_mutation_invariant regSt sampleDict
    highBalanceQ highBalanceQ (QueryResult.ok sampleResp) "pay1" none
    (QueryResult.ok "tx1") "pay1" "pay1" none (QueryResult.ok ()) QueryResult.err
    (by intro t ht; injection ht with h; subst h; decide)
  refine ⟨h1, h2, ?_, ?_⟩
  · obtain ⟨r, hrc, hm⟩ := h4 (by rw [hresc]; decide)
    injection hrc with hr2
    subst hr2
    rw [hresc] at hm
    exact hm
  · exact h6 (by rw [hress]; decide)

/-- A dict whose six required keys are all present but whose memo is the
empty string. -/
def emptyMemoDict : PaymentDict := { sampleDict with memo := some "" }

/-- Counterexample for C4: an intent with a required field present but
empty passes validation and is accepted by `create_payment`, which issues
the remote request and returns the identifier, contradicting the claim
that such an intent is rejected. -/
theorem C4_counterexample :
    validate_payment_data emptyMemoDict = true ∧
    (create_payment sampleState emptyMemoDict highBalanceQ
        (QueryResult.ok sampleResp)).remote_called = true ∧
    (create_payment sampleState emptyMemoDict highBalanceQ
        (QueryResult.ok sampleResp)).result = "pay1" := by
  refine ⟨rfl, ?_, ?_⟩ <;>
    (norm_num [create_payment, sampleState, initialState, validate_payment_data,
      emptyMemoDict, sampleDict, get_balance, findNative, highBalanceQ, feeAsDecimal,
      responseIdentifier, truthyStr, sampleResp]) <;> rfl

/-- C4 amended: the operations accept a payment dict exactly when all six
required keys are present; field values (in particular emptiness) are never
inspected by validation. -/
theorem C4_amended_presence_only_validation (st : PiState) (d : PaymentDict) :
    (validate_payment_data d = true ↔
      (d.amount.isSome = true ∧ d.memo.isSome = true ∧ d.metadata.isSome = true ∧
        d.user_uid.isSome = true ∧ d.identifier.isSome = true ∧
        d.to_address.isSome = true)) ∧
    ((build_a2u_transaction st d).isSome = true ↔ validate_payment_data d = true) := by
  constructor
  · simp [validate_payment_data]
  · by_cases h : validate_payment_data d <;> simp [build_a2u_transaction, h]

/-- A dict with amount 0 and all six keys present. -/
def zeroAmountDict : PaymentDict := { sampleDict with amount := some 0 }

/-- Counterexample for C5: on a session with fee 0 and a payment of amount
0, a failed balance query (an internal failure, soft-failed to balance 0)
does not produce the failure sentinel — the remote call still happens and
its identifier is returned. -/
theorem C5_counterexample :
    (create_payment initialState zeroAmountDict QueryResult.err
        (QueryResult.ok sampleResp)).result = "pay1" ∧
    (create_payment initialState zeroAmountDict QueryResult.err
        (QueryResult.ok sampleResp)).remote_called = true := by
  constructor <;>
    (norm_num [create_payment, initialState, validate_payment_data, zeroAmountDict,
      sampleDict, get_balance, feeAsDecimal, responseIdentifier, truthyStr,
      sampleResp]) <;> rfl

/-- C5 amended: no lifecycle operation ever raises (all are total functions
here, as every exception is caught at the boundary in the source); a
gateway failure, a validation failure, or a ledger failure always yields
the sentinel; a balance-query failure is soft-failed to a zero balance and
yields the sentinel whenever the intent's total cost is positive (it can
let the operation proceed when the total cost is not positive). -/
theorem C5_sentinel_failure_policy (st : PiState) (d : PaymentDict) (A : Rat)
    (bq : QueryResult (List BalanceEntry)) (rc : QueryResult CreateResponse)
    (pid : String) (pending : Option PaymentDict) (lg : QueryResult String)
    (idf idc : String) (txid : Option String) :
    ((create_payment st d bq QueryResult.err).result = "") ∧
    (validate_payment_data d = false → (create_payment st d bq rc).result = "") ∧
    (d.amount = some A → 0 < A + feeAsDecimal st.fee →
      (create_payment st d QueryResult.err rc).result = "") ∧
    ((submit_payment st pid pending bq QueryResult.err).result = "") ∧
    ((truthyDict pending = some d ∨
        (truthyDict pending = none ∧ regFind st.open_payments pid = some d)) →
      d.amount = some A → 0 < A + feeAsDecimal st.fee →
      (submit_payment st pid pending QueryResult.err lg).result = "") ∧
    (complete_payment st idf txid QueryResult.err).2 = false ∧
    (cancel_payment st idc QueryResult.err).2 = false ∧
    get_incomplete_server_payments st QueryResult.err = [] := by
  refine ⟨?_, ?_, ?_, ?_, ?_, rfl, rfl, rfl⟩
  · simp only [create_payment]
    split
    · rfl
    · split
      · rfl
      · rfl
  · intro hv
    simp [create_payment, hv]
  · intro ha hpos
    by_cases hv : validate_payment_data d
    · simp [create_payment, hv, ha, get_balance, hpos]
    · simp [create_payment, hv]
  · rcases submit_payment_cases st pid pending bq QueryResult.err with ⟨_, hr⟩ | ⟨t, hlg, _⟩
    · exact hr
    · cases hlg
  · intro hres ha hpos
    rcases hres with h | ⟨h1, h2⟩
    · simp [submit_payment, h, get_balance, ha, hpos]
    · simp [submit_payment, h1, h2, get_balance, ha, hpos]

/-- Witness for C5 at concrete inputs: each failure mode yields its
sentinel. -/
theorem C5_witness :
    (create_payment sampleState sampleDict lowBalanceQ QueryResult.err).result = "" ∧
    (create_payment sampleState {} lowBalanceQ (QueryResult.ok sampleResp)).result = "" ∧
    (create_payment sampleState sampleDict QueryResult.err
      (QueryResult.ok sampleResp)).result = "" ∧
    (submit_payment regSt "pay1" none lowBalanceQ QueryResult.err).result = "" ∧
    (submit_payment regSt "pay1" none QueryResult.err
      (QueryResult.ok "tx1")).result = "" ∧
    (complete_payment sampleState "pay1" none QueryResult.err).2 = false ∧
    (cancel_payment sampleState "pay1" QueryResult.err).2 = false ∧
    get_incomplete_server_payments sampleState QueryResult.err = [] := by
  obtain ⟨ha1, -, ha3, -, -, ha6, ha7, ha8⟩ := C5_sentinel_failure_policy sampleState
    sampleDict 1 lowBalanceQ (QueryResult.ok sampleResp) "pay1" none
    (QueryResult.ok "tx1") "pay1" "pay1" none
  obtain ⟨-, hb2, -, -, -, -, -, -⟩ := C5_sentinel_failure_policy sampleState
    ({} : PaymentDict) 1 lowBalanceQ (QueryResult.ok sampleResp) "pay1" none
    (QueryResult.ok "tx1") "pay1" "pay1" none
  obtain ⟨-, -, -, hc4, hc5, -, -, -⟩ := C5_sentinel_failure_policy regSt
    sampleDict 1 lowBalanceQ (QueryResult.ok sampleResp) "pay1" none
    (QueryResult.ok "tx1") "pay1" "pay1" none
  refine ⟨ha1, hb2 rfl, ha3 rfl ?_, hc4, hc5 (Or.inr ⟨rfl, rfl⟩) rfl ?_, ha6, ha7, ha8⟩
  · norm_num [sampleState, initialState, feeAsDecimal]
  · norm_num [regSt, sampleState, initialState, feeAsDecimal]

/-- C6: building from an intent with the six required fields yields a
transaction whose text memo is the intent's identifier, whose sole
operation is one native-asset payment of exactly the intent's amount to
the destination address, whose timeout is 180 seconds, and which the
submission step signs with the session's keypair. -/
theorem C6_transaction_construction (st : PiState) (d : PaymentDict) (A : Rat)
    (i addr : String) (hv : validate_payment_data d = true) (ha : d.amount = some A)
    (hi : d.identifier = some i) (htd : d.to_address = some addr) :
    ∃ tx, build_a2u_transaction st d = some tx ∧ tx.memo_text = i ∧
      tx.operations = [{ destination := addr, asset_native := true, amount := A }] ∧
      tx.timeout = 180 ∧ (sign_transaction st tx).signed_by = st.keypair := by
  refine ⟨{ source_account := st.account, network_passphrase := st.network,
            base_fee := st.fee, memo_text := i,
            operations := [{ destination := addr, asset_native := true, amount := A }],
            timeout := 180, signed_by := none }, ?_, rfl, rfl, rfl, rfl⟩
  simp [build_a2u_transaction, hv, ha, hi, htd]

/-- The round-trip intent of the specification: amount 10, memo x,
identifier pay1, destination GADDR. -/
def specDict : PaymentDict := { sampleDict with amount := some 10 }

/-- Witness for C6: the specification's round-trip example with fee 100. -/
theorem C6_witness :
    ∃ tx, build_a2u_transaction sampleState specDict = some tx ∧
      tx.memo_text = "pay1" ∧
      tx.operations = [{ destination := "GADDR", asset_native := true, amount := 10 }] ∧
      tx.timeout = 180 ∧
      (sign_transaction sampleState tx).signed_by = sampleState.keypair :=
  C6_transaction_construction sampleState specDict 10 "pay1" "GADDR" rfl rfl rfl rfl

/-- C7: `create_payment` on an intent missing at least one required field
returns the empty sentinel, leaves the state unchanged, and performs
neither the balance query nor the remote create request. -/
theorem C7_fail_fast_validation (st : PiState) (d : PaymentDict)
    (bq : QueryResult (List BalanceEntry)) (rc : QueryResult CreateResponse)
    (hm : d.amount = none ∨ d.memo = none ∨ d.metadata = none ∨
      d.user_uid = none ∨ d.identifier = none ∨ d.to_address = none) :
    create_payment st d bq rc =
      { state := st, result := "", balance_queried := false,
        remote_called := false } := by
  have hv : validate_payment_data d = false := by
    rcases hm with h | h | h | h | h | h <;> simp [validate_payment_data, h]
  simp [create_payment, hv]

/-- Witness for C7: an intent whose memo key is missing. -/
theorem C7_witness :
    create_payment sampleState { sampleDict with memo := none } highBalanceQ
        (QueryResult.ok sampleResp) =
      { state := sampleState, result := "", balance_queried := false,
        remote_called := false } :=
  C7_fail_fast_validation sampleState { sampleDict with memo := none } highBalanceQ
    (QueryResult.ok sampleResp) (Or.inr (Or.inl rfl))

theorem findNative_eq (l : List BalanceEntry) :
    findNative l =
      Option.map (fun e => e.balance)
        (List.find? (fun b => b.asset_type == "native") l) := by
  induction l with
  | nil => rfl
  | cons e rest ih =>
      by_cases h : e.asset_type = "native"
      · simp [findNative, List.find?, h]
      · have hb : (e.asset_type == "native") = false := by simp [h]
        simp [findNative, List.find?, h, ih, hb]

/-- C8: `get_balance` returns the first native-asset balance entry when the
node query succeeds and such an entry exists, and the zero decimal both
when no native entry exists and when the query fails; being a total
function, it never raises. -/
theorem C8_get_balance_soft_fail :
    (∀ l e, List.find? (fun b => b.asset_type == "native") l = some e →
      get_balance (QueryResult.ok l) = e.balance) ∧
    (∀ l, List.find? (fun b => b.asset_type == "native") l = none →
      get_balance (QueryResult.ok l) = 0) ∧
    get_balance QueryResult.err = 0 := by
  refine ⟨?_, ?_, rfl⟩
  · intro l e h
    simp [get_balance, findNative_eq, h]
  · intro l h
    simp [get_balance, findNative_eq, h]

/-- Witness for C8: a two-entry balance list whose native entry holds 7,
and a failed query. -/
theorem C8_witness :
    get_balance (QueryResult.ok [{ asset_type := "credit", balance := 5 },
      { asset_type := "native", balance := 7 }]) = 7 ∧
    get_balance QueryResult.err = 0 :=
  ⟨C8_get_balance_soft_fail.1 [{ asset_type := "credit", balance := 5 },
      { asset_type := "native", balance := 7 }]
      { asset_type := "native", balance := 7 } rfl,
    C8_get_balance_soft_fail.2.2⟩

/-- A well-formed 56-character secret seed starting with S. -/
def sampleSeed : String := "SAAAAAAAAAAAAAAAAAAAAAAAAAAAAAAAAAAAAAAAAAAAAAAAAAAAAAAA"

/-- A concrete keypair. -/
def sampleKeypair : Keypair := { secret := "SSEC", public_key := "GPUB" }

/-- Counterexample for C9: an `init_session` run that fails at the
account-load step returns failure but has already overwritten the api key
(and keypair and server handle), so the session fields are not as they
were before the call. -/
theorem C9_counterexample :
    (init_session initialState "newkey" sampleSeed "Pi Network" (some sampleKeypair)
        QueryResult.err (QueryResult.ok 100)).2 = false ∧
    (init_session initialState "newkey" sampleSeed "Pi Network" (some sampleKeypair)
        QueryResult.err (QueryResult.ok 100)).1.api_key = "newkey" ∧
    initialState.api_key ≠ "newkey" := by
  refine ⟨rfl, rfl, by decide⟩

/-- C9 amended: a failed `init_session` leaves exactly the assignments made
before the failing step.  Bad seed format leaves every field unchanged;
keypair-derivation failure leaves the api key overwritten; account-load
failure leaves api key, keypair and server handle overwritten; fee-fetch
failure leaves every field except the cached fee overwritten. -/
theorem C9_amended_partial_mutation (st : PiState) (api_key seed network : String)
    (kpR : Option Keypair) (loadR : QueryResult String) (feeR : QueryResult Int) :
    (validate_private_seed_format seed = false →
      init_session st api_key seed network kpR loadR feeR = (st, false)) ∧
    (validate_private_seed_format seed = true → kpR = none →
      init_session st api_key seed network kpR loadR feeR =
        ({ st with api_key := api_key }, false)) ∧
    (∀ kp, validate_private_seed_format seed = true → kpR = some kp →
      loadR = QueryResult.err →
      init_session st api_key seed network kpR loadR feeR =
        ({ st with api_key := api_key, keypair := some kp,
                   server := some (if network = "Pi Network" then MAINNET_URL
                                   else TESTNET_URL) }, false)) ∧
    (∀ kp acct, validate_private_seed_format seed = true → kpR = some kp →
      loadR = QueryResult.ok acct → feeR = QueryResult.err →
      init_session st api_key seed network kpR loadR feeR =
        ({ st with api_key := api_key, keypair := some kp,
                   server := some (if network = "Pi Network" then MAINNET_URL
                                   else TESTNET_URL),
                   account := some acct,
                   base_url := if network = "Pi Network" then MAINNET_URL
                               else TESTNET_URL,
                   network := network }, false)) ∧
    (∀ kp acct f, validate_private_seed_format seed = true → kpR = some kp →
      loadR = QueryResult.ok acct → feeR = QueryResult.ok f →
      init_session st api_key seed network kpR loadR feeR =
        ({ st with api_key := api_key, keypair := some kp,
                   server := some (if network = "Pi Network" then MAINNET_URL
                                   else TESTNET_URL),
                   account := some acct,
                   base_url := if network = "Pi Network" then MAINNET_URL
                               else TESTNET_URL,
                   network := network, fee := f }, true)) := by
  refine ⟨?_, ?_, ?_, ?_, ?_⟩
  · intro h
    simp [init_session, h]
  · intro h hk
    subst hk
    simp [init_session, h]
  · intro kp h hk hl
    subst hk
    subst hl
    simp [init_session, h]
  · intro kp acct h hk hl hf
    subst hk
    subst hl
    subst hf
    simp [init_session, h]
  · intro kp acct f h hk hl hf
    subst hk
    subst hl
    subst hf
    simp [init_session, h]

/-- Witness for C9 at concrete inputs: a malformed seed leaves the state
untouched; a fee-fetch failure leaves everything but the fee assigned. -/
theorem C9_witness :
    init_session initialState "k" "xyz" "Pi Network" none QueryResult.err
      QueryResult.err = (initialState, false) ∧
    init_session initialState "k" sampleSeed "Pi Network" (some sampleKeypair)
      (QueryResult.ok "GPUB") QueryResult.err =
      ({ initialState with api_key := "k", keypair := some sampleKeypair,
                           server := some MAINNET_URL, account := some "GPUB",
                           base_url := MAINNET_URL, network := "Pi Network" },
        false) := by
  constructor
  · exact (C9_amended_partial_mutation initialState "k" "xyz" "Pi Network" none
      QueryResult.err QueryResult.err).1 rfl
  · have h := (C9_amended_partial_mutation initialState "k" sampleSeed "Pi Network"
      (some sampleKeypair) (QueryResult.ok "GPUB") QueryResult.err).2.2.2.1
      sampleKeypair "GPUB" (by decide) rfl rfl rfl
    rw [h]
    rfl

/-- C10: both balance gates compare strictly: when the total cost exactly
equals the balance, `create_payment` still issues the remote request and
`submit_payment` still submits to the ledger; when it is strictly greater,
both return the empty sentinel without the remote / ledger step. -/
theorem C10_strict_gate_boundary (st : PiState) (d : PaymentDict)
    (bq : QueryResult (List BalanceEntry)) (rc : QueryResult CreateResponse)
    (pid : String) (lg : QueryResult String) (A B : Rat)
    (hv : validate_payment_data d = true) (ha : d.amount = some A)
    (hB : get_balance bq = B) :
    (A + feeAsDecimal st.fee = B →
      (create_payment st d bq rc).remote_called = true ∧
      (submit_payment st pid (some d) bq lg).ledger_submitted = true) ∧
    (A + feeAsDecimal st.fee > B →
      create_payment st d bq rc =
        { state := st, result := "", balance_queried := true,
          remote_called := false } ∧
      submit_payment st pid (some d) bq lg =
        { state := st, result := "", balance_queried := true,
          ledger_submitted := false }) := by
  have hte : truthyDict (some d) = some d := by
    simp [truthyDict, validate_not_empty hv]
  constructor
  · intro heq
    have hng : ¬ A + feeAsDecimal st.fee > B := not_lt.mpr (le_of_eq heq)
    constructor
    · simp only [create_payment, hv, Bool.not_true, ha, hB]
      simp [hng]
      cases rc with
      | err => simp
      | ok r =>
          cases hri : responseIdentifier r with
          | some i => simp [hri]
          | none => simp [hri]
    · simp only [submit_payment, hte]
      simp [ha, hB, hng, build_a2u_transaction, hv, submit_transaction]
      cases lg with
      | err => simp
      | ok t => simp
  · intro hgt
    constructor
    · simp [create_payment, hv, ha, hB, hgt]
    · simp only [submit_payment, hte]
      simp [ha, hB, hgt]

/-- Witness for C10: with amount 1 and fee 100, a balance of exactly
1 + 100/10^7 lets both operations proceed; a balance of 1/2 blocks both. -/
theorem C10_witness :
    (create_payment sampleState sampleDict exactBalanceQ
      (QueryResult.ok sampleResp)).remote_called = true ∧
    (submit_payment sampleState "pay1" (some sampleDict) exactBalanceQ
      (QueryResult.ok "tx1")).ledger_submitted = true ∧
    create_payment sampleState sampleDict lowBalanceQ (QueryResult.ok sampleResp) =
      { state := sampleState, result := "", balance_queried := true,
        remote_called := false } ∧
    submit_payment sampleState "pay1" (some sampleDict) lowBalanceQ
        (QueryResult.ok "tx1") =
      { state := sampleState, result := "", balance_queried := true,
        ledger_submitted := false } := by
  obtain ⟨he, -⟩ := C10_strict_gate_boundary sampleState sampleDict exactBalanceQ
    (QueryResult.ok sampleResp) "pay1" (QueryResult.ok "tx1") 1 (1 + 1/100000)
    rfl rfl rfl
  obtain ⟨h1, h2⟩ := he (by norm_num [sampleState, initialState, feeAsDecimal])
  obtain ⟨-, hg⟩ := C10_strict_gate_boundary sampleState sampleDict lowBalanceQ
    (QueryResult.ok sampleResp) "pay1" (QueryResult.ok "tx1") 1 (1/2)
    rfl rfl rfl
  obtain ⟨h3, h4⟩ := hg (by norm_num [sampleState, initialState, feeAsDecimal])
  exact ⟨h1, h2, h3, h4⟩
